import Mathlib

/-!
Shallow embedding of the alert engine in `backend/alerts/alert_manager.py`
(class `AlertManager`).  Wall-clock instants are modelled as rational
numbers of minutes; `datetime.now()` becomes an explicit `now : ℚ`
argument threaded through the operations.  Python dictionaries keyed by
strings become association lists, and the mutable `AlertManager` object
becomes an explicit `AMState` record passed and returned by each
operation.  Sample standard deviation is carried as its square
(`sampleVarianceQ`), since `statistics.stdev` is only ever compared
(`stdev > 0`, `z_score > 3.0`) and both comparisons are transcribed in
their exact squared form; display rounding (`round(x, k)`) of metadata
numbers is omitted, the exact values are stored.
-/

set_option allowUnsafeReducibility true in
attribute [semireducible] Rat.add Rat.sub Rat.mul Rat.div Rat.inv Rat.neg

set_option maxRecDepth 8000

namespace AirQuality

/-- Severity levels, from the `AlertSeverity` enumeration of the source. -/
inductive Severity where
  | info
  | warning
  | critical
  | emergency
deriving DecidableEq, Repr

/-- Alert kinds, from the `AlertType` enumeration of the source. -/
inductive AlertType where
  | threshold
  | predictive
  | anomaly
  | system
  | trend
deriving DecidableEq, Repr

/-- EPA AQI bands, the keys of `AlertManager.THRESHOLDS`. -/
inductive Category where
  | good
  | moderate
  | unhealthySensitive
  | unhealthy
  | veryUnhealthy
  | hazardous
deriving DecidableEq, Repr

/-- The string name of a band as it appears in `THRESHOLDS`. -/
def Category.key : Category → String
  | .good => "good"
  | .moderate => "moderate"
  | .unhealthySensitive => "unhealthy_sensitive"
  | .unhealthy => "unhealthy"
  | .veryUnhealthy => "very_unhealthy"
  | .hazardous => "hazardous"

/-- Detector-specific alert metadata: the union of the key sets the four
detectors store in the `metadata` dict, each field `none` when the
detector does not set it.  Numeric values are exact (display rounding
omitted); `z_score` and `stdev` are carried squared. -/
structure Metadata where
  category : Option String := none
  z_score_sq : Option ℚ := none
  mean_val : Option ℚ := none
  stdev_sq : Option ℚ := none
  direction : Option String := none
  change_percent : Option ℚ := none
  from_avg : Option ℚ := none
  to_avg : Option ℚ := none
  hours_ahead : Option ℚ := none
  forecast_timestamp : Option ℚ := none
deriving DecidableEq, Repr

/-- The `Alert` dataclass.  `id` is modelled by the numeric counter part of
the source's `alert_<datetime>_<counter>` string, which is what makes ids
distinct; `timestamp` is `createdAt`. -/
structure Alert where
  id : ℕ
  type : AlertType
  severity : Severity
  title : String
  message : String
  timestamp : ℚ
  reading_id : Option ℤ := none
  aqi_value : Option ℤ := none
  acknowledged : Bool := false
  auto_dismiss : Bool := false
  expires_at : Option ℚ := none
  metadata : Metadata := {}
deriving DecidableEq, Repr

/-- A sensor reading as consumed by `process_reading`: only the fields the
alert engine reads (`reading.get('id')`, `reading.get('aqi', 0)`, with the
aqi default already folded in). -/
structure Reading where
  id : Option ℤ := none
  aqi : ℤ := 0
deriving DecidableEq, Repr

/-- One forecast point as consumed by `process_forecast`
(`pred.get('hours_ahead', 0)`, `pred.get('aqi', 0)`, `pred.get('timestamp')`,
defaults folded in). -/
structure ForecastPoint where
  hours_ahead : ℚ := 0
  aqi : ℤ := 0
  timestamp : ℚ := 0
deriving DecidableEq, Repr

/-- The forecast argument dict of `process_forecast`.  The source reads the
list under the dict key `'forecast'`; the spec's interface names the key
`points`.  Both possible keys are modelled so that calls using either key
can be expressed; the code only ever looks at `forecastField`. -/
structure ForecastInput where
  forecastField : Option (List ForecastPoint) := none
  pointsField : Option (List ForecastPoint) := none
deriving DecidableEq, Repr

/-- `CONFIG['threshold_cooldown_minutes']`. -/
def threshold_cooldown_minutes : ℚ := 15

/-- `CONFIG['anomaly_window_size']`. -/
def anomaly_window_size : ℕ := 10

/-- `CONFIG['anomaly_std_threshold']`. -/
def anomaly_std_threshold : ℚ := 3

/-- `CONFIG['predictive_lead_time_hours']`. -/
def predictive_lead_time_hours : ℚ := 2

/-- `CONFIG['max_active_alerts']`. -/
def max_active_alerts : ℕ := 50

/-- Capacity of the `reading_buffer` deque (`deque(maxlen=50)`). -/
def reading_buffer_cap : ℕ := 50

/-- Capacity of the `alert_history` deque (`deque(maxlen=500)`). -/
def alert_history_cap : ℕ := 500

/-- The mutable state of an `AlertManager` instance: the fields touched by
the operations under proof (`active_alerts`, `alert_history`,
`reading_buffer`, `last_alert_times`, `_alert_counter`).  The callback list
and database hooks carry no state and are passed explicitly where needed. -/
structure AMState where
  active_alerts : List Alert := []
  alert_history : List Alert := []
  reading_buffer : List Reading := []
  last_alert_times : List (String × ℚ) := []
  alert_counter : ℕ := 0
deriving DecidableEq, Repr

/-- A freshly constructed `AlertManager()`. -/
def emptyState : AMState := {}

/-- Append to a bounded deque: `deque.append` with `maxlen = cap` drops
from the left when full. -/
def pushBounded (cap : ℕ) (l : List α) (x : α) : List α :=
  let l2 := l ++ [x]
  if cap < l2.length then l2.drop (l2.length - cap) else l2

/-- The last `n` elements of a list, oldest first (`list(buf)[-n:]`). -/
def takeLastN (n : ℕ) (l : List α) : List α :=
  l.drop (l.length - n)

/-- Dict lookup in `last_alert_times` (`alert_key in self.last_alert_times`
followed by `self.last_alert_times[alert_key]`). -/
def lookupTime : List (String × ℚ) → String → Option ℚ
  | [], _ => none
  | p :: rest, key => if p.1 = key then some p.2 else lookupTime rest key

/-- Dict assignment `self.last_alert_times[alert_key] = now`: replace the
binding in place when the key is present, append it otherwise. -/
def setTime : List (String × ℚ) → String → ℚ → List (String × ℚ)
  | [], key, t => [(key, t)]
  | p :: rest, key, t =>
    if p.1 = key then (key, t) :: rest else p :: setTime rest key t

/-- `AlertManager._can_send_alert`: returns whether the alert may fire and
the updated cooldown map (the source mutates `self.last_alert_times` only
on the `True` path). -/
def can_send_alert (now : ℚ) (times : List (String × ℚ)) (alert_key : String) :
    Bool × List (String × ℚ) :=
  match lookupTime times alert_key with
  | some t =>
    if now - t < threshold_cooldown_minutes then (false, times)
    else (true, setTime times alert_key now)
  | none => (true, setTime times alert_key now)

/-- `AlertManager._get_aqi_category`: the sequential scan over the six
`THRESHOLDS` ranges with the `('hazardous', 301, 500)` fall-through
default. -/
def get_aqi_category (aqi : ℤ) : Category × ℤ × ℤ :=
  if 0 ≤ aqi ∧ aqi ≤ 50 then (.good, 0, 50)
  else if 51 ≤ aqi ∧ aqi ≤ 100 then (.moderate, 51, 100)
  else if 101 ≤ aqi ∧ aqi ≤ 150 then (.unhealthySensitive, 101, 150)
  else if 151 ≤ aqi ∧ aqi ≤ 200 then (.unhealthy, 151, 200)
  else if 201 ≤ aqi ∧ aqi ≤ 300 then (.veryUnhealthy, 201, 300)
  else if 301 ≤ aqi ∧ aqi ≤ 500 then (.hazardous, 301, 500)
  else (.hazardous, 301, 500)

/-- First cleanup pass of `AlertManager._cleanup_alerts`: drop alerts whose
`expires_at` has passed, then drop acknowledged alerts older than one
hour. -/
def cleanup_keep (now : ℚ) (alerts : List Alert) : List Alert :=
  let a1 := alerts.filter fun a =>
    match a.expires_at with
    | none => true
    | some e => decide (now < e)
  a1.filter fun a => !a.acknowledged || decide (now - 60 < a.timestamp)

/-- `AlertManager._cleanup_alerts` on the active list: the two filters
followed by truncation to the last `max_active_alerts` entries
(`self.active_alerts[-max:]`). -/
def cleanup_list (now : ℚ) (alerts : List Alert) : List Alert :=
  let a2 := cleanup_keep now alerts
  if max_active_alerts < a2.length then a2.drop (a2.length - max_active_alerts)
  else a2

/-- `AlertManager._create_alert` without the callback/persistence fan-out
(which performs no state change; it is modelled by
`create_alert_dispatch` below): build the alert, append it to the active
list and the history ring, run cleanup, return it. -/
def create_alert (now : ℚ) (ty : AlertType) (sev : Severity)
    (title message : String) (reading_id : Option ℤ) (aqi_value : Option ℤ)
    (auto_dismiss : Bool) (expires_minutes : Option ℤ) (metadata : Metadata)
    (s : AMState) : Alert × AMState :=
  let expires_at : Option ℚ :=
    match expires_minutes with
    | some m => if m = 0 then none else some (now + (m : ℚ))
    | none => none
  let alert : Alert :=
    { id := s.alert_counter + 1
      type := ty
      severity := sev
      title := title
      message := message
      timestamp := now
      reading_id := reading_id
      aqi_value := aqi_value
      acknowledged := false
      auto_dismiss := auto_dismiss
      expires_at := expires_at
      metadata := metadata }
  (alert,
    { s with
      alert_counter := s.alert_counter + 1
      active_alerts := cleanup_list now (s.active_alerts ++ [alert])
      alert_history := pushBounded alert_history_cap s.alert_history alert })

/-- The cooldown key of the anomaly detector. -/
def anomaly_key : String := "anomaly"

/-- The cooldown key of the trend detector. -/
def trend_key : String := "trend_worsening"

/-- The `"threshold_" + category` cooldown key of the threshold
evaluator. -/
def threshold_key (c : Category) : String := "threshold_" ++ c.key

/-- The `"predictive_" + int(aqi/50)*50` cooldown key of the predictive
evaluator; the evaluator only reaches it with `aqi > 150 > 0`, where
Python's truncating `int(aqi/50)` agrees with euclidean division. -/
def predictive_key (aqi : ℤ) : String :=
  "predictive_" ++ toString (Int.ediv aqi 50 * 50)

/-- The `severity_map.get(category, AlertSeverity.INFO)` lookup of
`_check_threshold`. -/
def threshold_severity : Category → Severity
  | .unhealthySensitive => .warning
  | .unhealthy => .critical
  | .veryUnhealthy => .critical
  | .hazardous => .emergency
  | _ => .info

/-- The `titles.get(category, "Air Quality Alert")` lookup of
`_check_threshold` (emoji prefixes omitted). -/
def threshold_title : Category → String
  | .unhealthySensitive => "Unhealthy for Sensitive Groups"
  | .unhealthy => "Unhealthy Air Quality"
  | .veryUnhealthy => "Very Unhealthy Air Quality"
  | .hazardous => "HAZARDOUS Air Quality"
  | _ => "Air Quality Alert"

/-- The `messages.get(category, ...)` lookup of `_check_threshold`
(message bodies abbreviated; no claim depends on their text). -/
def threshold_message : Category → String
  | .unhealthySensitive => "Air quality is unhealthy for sensitive groups."
  | .unhealthy => "Air quality is unhealthy."
  | .veryUnhealthy => "Air quality is very unhealthy."
  | .hazardous => "HAZARDOUS air quality!"
  | _ => "Air Quality Alert"

/-- `AlertManager._check_threshold`. -/
def check_threshold (now : ℚ) (aqi : ℤ) (reading_id : Option ℤ)
    (s : AMState) : Option Alert × AMState :=
  let c := (get_aqi_category aqi).1
  if c = Category.good ∨ c = Category.moderate then (none, s)
  else
    let r := can_send_alert now s.last_alert_times (threshold_key c)
    let s1 := { s with last_alert_times := r.2 }
    if r.1 then
      let cr := create_alert now .threshold (threshold_severity c)
        (threshold_title c) (threshold_message c) reading_id (some aqi)
        false none { category := some c.key } s1
      (some cr.1, cr.2)
    else (none, s1)

/-- `statistics.mean` over a list of integer AQI values, as an exact
rational. -/
def qmean (xs : List ℤ) : ℚ :=
  ((xs.sum : ℚ)) / (xs.length : ℚ)

/-- The square of `statistics.stdev` (sample standard deviation) over a
list of integer AQI values, as an exact rational:
sum of squared deviations over `n - 1`. -/
def sampleVarianceQ (xs : List ℤ) : ℚ :=
  (xs.map fun x => ((x : ℚ) - qmean xs) ^ 2).sum / ((xs.length : ℚ) - 1)

/-- Truncation toward zero, Python's `int()` on a number. -/
def qtrunc (q : ℚ) : ℤ :=
  if 0 ≤ q then ⌊q⌋ else ⌈q⌉

/-- Title stem of an anomaly alert. -/
def anomaly_title_base : String := "Unusual AQI "

/-- Message of an anomaly alert (numeric interpolation omitted). -/
def anomaly_msg : String := "AQI changed abruptly."

/-- Title stem of a predictive alert. -/
def predictive_title_base : String := "AQI Expected to Reach "

/-- Message of a predictive alert (numeric interpolation omitted). -/
def predictive_msg : String := "Air quality forecast predicts unhealthy AQI."

/-- Title of a trend alert. -/
def trend_title : String := "Air Quality Worsening"

/-- Message of a trend alert (numeric interpolation omitted). -/
def trend_msg : String := "AQI has increased over recent readings."

/-- The direction label of an anomaly alert. -/
def dir_spike : String := "spike"

/-- The direction label of an anomaly alert below the mean. -/
def dir_drop : String := "drop"

/-- `AlertManager._check_anomaly`.  The source computes
`stdev = statistics.stdev(aqi_values[:-1]) if len(aqi_values) > 2 else 10`
and then tests `stdev > 0` and `abs(current - mean) / stdev > 3.0`; the
embedding carries `stdev` squared (`100` for the fallback `10`) and tests
`stdev_sq > 0` and `(current - mean)^2 > 3^2 * stdev_sq`, which are the
same comparisons in exact arithmetic since both sides are nonnegative. -/
def check_anomaly (now : ℚ) (s : AMState) : Option Alert × AMState :=
  if s.reading_buffer.length < anomaly_window_size then (none, s)
  else
    let aqi_values := (takeLastN anomaly_window_size s.reading_buffer).map
      fun r => r.aqi
    if aqi_values.length < 3 then (none, s)
    else
      let baseline := aqi_values.dropLast
      let mean := qmean baseline
      let stdev_sq : ℚ :=
        if 2 < aqi_values.length then sampleVarianceQ baseline else 100
      let current : ℤ := aqi_values.getLastD 0
      if 0 < stdev_sq then
        if anomaly_std_threshold ^ 2 * stdev_sq < ((current : ℚ) - mean) ^ 2 then
          let r := can_send_alert now s.last_alert_times anomaly_key
          let s1 := { s with last_alert_times := r.2 }
          if r.1 then
            let direction := if mean < (current : ℚ) then dir_spike else dir_drop
            let cr := create_alert now .anomaly .warning
              (anomaly_title_base ++ direction) anomaly_msg
              none (some current) true (some 30)
              { z_score_sq := some ((((current : ℚ) - mean) ^ 2) / stdev_sq)
                mean_val := some mean
                stdev_sq := some stdev_sq
                direction := some direction } s1
            (some cr.1, cr.2)
          else (none, s1)
        else (none, s)
      else (none, s)

/-- `AlertManager._check_trend`. -/
def check_trend (now : ℚ) (s : AMState) : Option Alert × AMState :=
  if s.reading_buffer.length < 20 then (none, s)
  else
    let recent := (takeLastN 20 s.reading_buffer).map fun r => r.aqi
    let first_half : ℚ := (((recent.take 10).sum : ℚ)) / 10
    let second_half : ℚ := (((recent.drop 10).sum : ℚ)) / 10
    let change_pct : ℚ :=
      if 0 < first_half then (second_half - first_half) / first_half * 100
      else 0
    if 30 < change_pct then
      let r := can_send_alert now s.last_alert_times trend_key
      let s1 := { s with last_alert_times := r.2 }
      if r.1 then
        let cr := create_alert now .trend .warning trend_title trend_msg
          none (some (qtrunc second_half)) true (some 60)
          { change_percent := some change_pct
            from_avg := some first_half
            to_avg := some second_half } s1
        (some cr.1, cr.2)
      else (none, s1)
    else (none, s)

/-- `AlertManager.process_reading`: push the reading into the buffer, then
run the threshold, anomaly and trend checks in order, collecting the
alerts each produced. -/
def process_reading (now : ℚ) (reading : Reading) (s : AMState) :
    List Alert × AMState :=
  let s0 := { s with
    reading_buffer := pushBounded reading_buffer_cap s.reading_buffer reading }
  let t := check_threshold now reading.aqi reading.id s0
  let a := check_anomaly now t.2
  let tr := check_trend now a.2
  (t.1.toList ++ a.1.toList ++ tr.1.toList, tr.2)

/-- The scan loop of `AlertManager.process_forecast`: for each prediction
within the lead time whose AQI exceeds 150, check the bucketed cooldown;
on success create the alert and `break`; otherwise keep scanning. -/
def forecast_scan (now : ℚ) (preds : List ForecastPoint) (s : AMState) :
    List Alert × AMState :=
  match preds with
  | [] => ([], s)
  | p :: rest =>
    if p.hours_ahead ≤ predictive_lead_time_hours ∧ 150 < p.aqi then
      let r := can_send_alert now s.last_alert_times (predictive_key p.aqi)
      let s1 := { s with last_alert_times := r.2 }
      if r.1 then
        let sev := if 200 < p.aqi then Severity.critical else Severity.warning
        let cr := create_alert now .predictive sev
          (predictive_title_base ++ toString p.aqi) predictive_msg
          none (some p.aqi) true (some (qtrunc (p.hours_ahead * 60)))
          { hours_ahead := some p.hours_ahead
            forecast_timestamp := some p.timestamp } s1
        ([cr.1], cr.2)
      else forecast_scan now rest s1
    else forecast_scan now rest s

/-- `AlertManager.process_forecast`: guard on the `'forecast'` dict key
(`if not forecast or 'forecast' not in forecast: return []`), then the
scan. -/
def process_forecast (now : ℚ) (forecast : Option ForecastInput)
    (s : AMState) : List Alert × AMState :=
  match forecast with
  | none => ([], s)
  | some f =>
    match f.forecastField with
    | none => ([], s)
    | some preds => forecast_scan now preds s

/-- `AlertManager.get_active_alerts`: run cleanup, then return the
unacknowledged active alerts. -/
def get_active_alerts (now : ℚ) (s : AMState) : List Alert × AMState :=
  let s1 := { s with active_alerts := cleanup_list now s.active_alerts }
  (s1.active_alerts.filter fun a => !a.acknowledged, s1)

/-- The counts record returned by `get_alert_counts`. -/
structure Counts where
  total : ℕ := 0
  info : ℕ := 0
  warning : ℕ := 0
  critical : ℕ := 0
  emergency : ℕ := 0
deriving DecidableEq, Repr

/-- One step of the counting loop of `get_alert_counts`. -/
def count_step (c : Counts) (a : Alert) : Counts :=
  if a.acknowledged then c
  else
    let c1 := { c with total := c.total + 1 }
    match a.severity with
    | .info => { c1 with info := c1.info + 1 }
    | .warning => { c1 with warning := c1.warning + 1 }
    | .critical => { c1 with critical := c1.critical + 1 }
    | .emergency => { c1 with emergency := c1.emergency + 1 }

/-- `AlertManager.get_alert_counts`: counts unacknowledged alerts in the
stored active list by severity.  Note: unlike `get_active_alerts`, the
source performs no cleanup here and takes no notion of the current time. -/
def get_alert_counts (s : AMState) : Counts :=
  s.active_alerts.foldl count_step {}

/-- `AlertManager.acknowledge_alert`. -/
def acknowledge_alert (s : AMState) (aid : ℕ) : Bool × AMState :=
  if s.active_alerts.any fun a => a.id = aid then
    (true,
      { s with active_alerts := s.active_alerts.map fun a =>
          if a.id = aid then { a with acknowledged := true } else a })
  else (false, s)

/-- `AlertManager.dismiss_alert`. -/
def dismiss_alert (s : AMState) (aid : ℕ) : Bool × AMState :=
  (true, { s with active_alerts := s.active_alerts.filter fun a => a.id ≠ aid })

/-- Outcome of invoking one observer callback (or the persistence hook)
inside its own `try`/`except`: `none` when it returned normally, `some e`
recording the caught exception otherwise. -/
def cb_outcome (cb : Alert → Except ε Unit) (a : Alert) : Option ε :=
  match cb a with
  | Except.ok _ => none
  | Except.error e => some e

/-- The observer fan-out loop of `_create_alert`: each callback is invoked
inside its own `try`/`except`, so every callback is attempted exactly once
regardless of earlier exceptions, each contributing one outcome. -/
def run_callbacks (cbs : List (Alert → Except ε Unit)) (a : Alert) :
    List (Option ε) :=
  match cbs with
  | [] => []
  | cb :: rest => cb_outcome cb a :: run_callbacks rest a

/-- The optional `db_save` call of `_create_alert`, also wrapped in
`try`/`except`. -/
def run_db_save (db : Option (Alert → Except ε Unit)) (a : Alert) :
    List (Option ε) :=
  match db with
  | none => []
  | some f => [cb_outcome f a]

/-- `AlertManager._create_alert` including the notification fan-out: the
state change of `create_alert`, followed by the observer loop and the
optional persistence hook, returning the created alert, the new state, and
the list of caught outcomes (one per attempted call, in order).  The
function is total: no callback outcome can abort it, mirroring the
per-callback `try`/`except` of the source. -/
def create_alert_dispatch (now : ℚ) (ty : AlertType) (sev : Severity)
    (title message : String) (reading_id : Option ℤ) (aqi_value : Option ℤ)
    (auto_dismiss : Bool) (expires_minutes : Option ℤ) (metadata : Metadata)
    (cbs : List (Alert → Except ε Unit)) (db : Option (Alert → Except ε Unit))
    (s : AMState) : Alert × AMState × List (Option ε) :=
  let c := create_alert now ty sev title message reading_id aqi_value
    auto_dismiss expires_minutes metadata s
  (c.1, c.2, run_callbacks cbs c.1 ++ run_db_save db c.1)

/-- `AlertManager.create_system_alert`. -/
def create_system_alert (now : ℚ) (title message : String) (sev : Severity)
    (s : AMState) : Alert × AMState :=
  create_alert now .system sev title message none none true (some 60) {} s

/-! Concrete inputs and states used by the closed statements below. -/

/-- A reading with AQI 50. -/
def fifty : Reading := { aqi := 50 }

/-- A reading with AQI 500. -/
def spike500 : Reading := { aqi := 500 }

/-- A placeholder title for generic alert creations. -/
def sampleTitle : String := "t"

/-- A placeholder message for generic alert creations. -/
def sampleMsg : String := "m"

/-- The manager state after processing nine readings of AQI 50 from a
fresh instance. -/
def nineFiftyState : AMState :=
  (List.range 9).foldl (fun st _ => (process_reading 0 fifty st).2) emptyState

/-- The manager state after processing ten readings of AQI 50 from a
fresh instance. -/
def tenFiftyState : AMState :=
  (List.range 10).foldl (fun st _ => (process_reading 0 fifty st).2) emptyState

/-- A state whose predictive bucket-150 cooldown fired at minute 0. -/
def bucketCooldownState : AMState :=
  { last_alert_times := [(predictive_key 180, 0)] }

/-- A state holding one unacknowledged alert created at minute 0 that
expires at minute 5. -/
def expiredCountState : AMState :=
  (create_alert 0 .system .warning sampleTitle sampleMsg none none true
    (some 5) {} emptyState).2

/-- The state after sixty sequential alert creations on a fresh
instance. -/
def sixtyState : AMState :=
  (List.range 60).foldl
    (fun st _ =>
      (create_alert 0 .system .warning sampleTitle sampleMsg none none false
        none {} st).2)
    emptyState

/-- Twenty buffered readings whose older half averages 50 and newer half
averages 70 (a 40% increase). -/
def worsenState : AMState :=
  { reading_buffer :=
      List.replicate 10 ({ aqi := 50 } : Reading) ++
        List.replicate 10 ({ aqi := 70 } : Reading) }

/-- Twenty buffered readings whose older half averages 50 and newer half
averages 55 (a 10% increase). -/
def mildTrendState : AMState :=
  { reading_buffer :=
      List.replicate 10 ({ aqi := 50 } : Reading) ++
        List.replicate 10 ({ aqi := 55 } : Reading) }

/-- Twenty buffered readings with a negative older-half mean of -100 and a
newer-half mean of -200. -/
def negTrendState : AMState :=
  { reading_buffer :=
      List.replicate 10 ({ aqi := -100 } : Reading) ++
        List.replicate 10 ({ aqi := -200 } : Reading) }

/-- Twenty buffered readings of AQI 0 (older-half mean zero). -/
def zeroTrendState : AMState :=
  { reading_buffer := List.replicate 20 ({ aqi := 0 } : Reading) }

/-- An observer callback that always raises. -/
def cbFail : Alert → Except Unit Unit := fun _ => Except.error ()

/-- An observer callback that always succeeds. -/
def cbOk : Alert → Except Unit Unit := fun _ => Except.ok ()

/-- The alert `forecast_scan` creates for a winning forecast point, as a
function of the scanning state (the created alert reads only the alert
counter, which the cooldown update does not touch). -/
def mk_predictive_alert (now : ℚ) (p : ForecastPoint) (s : AMState) : Alert :=
  (create_alert now .predictive
    (if 200 < p.aqi then Severity.critical else Severity.warning)
    (predictive_title_base ++ toString p.aqi) predictive_msg
    none (some p.aqi) true (some (qtrunc (p.hours_ahead * 60)))
    { hours_ahead := some p.hours_ahead
      forecast_timestamp := some p.timestamp } s).1

/-- A one-point forecast (1 hour ahead, AQI 180, point timestamp 100)
under the `'forecast'` dict key. -/
def oneHour180Forecast : ForecastInput :=
  { forecastField := some [{ hours_ahead := 1, aqi := 180, timestamp := 100 }] }

/-- The same single point placed under the `points` dict key named by the
spec's interface instead. -/
def oneHour180Points : ForecastInput :=
  { pointsField := some [{ hours_ahead := 1, aqi := 180, timestamp := 100 }] }

/-- A one-point forecast five hours ahead (outside the 2-hour lead time). -/
def fiveHour180Forecast : ForecastInput :=
  { forecastField := some [{ hours_ahead := 5, aqi := 180, timestamp := 100 }] }

/-- A two-point forecast: first a qualifying point with AQI 180 (bucket
150), then a qualifying point with AQI 260 (bucket 250). -/
def twoPointForecast : ForecastInput :=
  { forecastField := some
      [{ hours_ahead := 1, aqi := 180 },
        { hours_ahead := 1, aqi := 260, timestamp := 5 }] }

/-- The trend percentage-change guard as claim C9 states it: the change is
treated as 0% exactly when the older-half mean is zero.  Written from the
claim's words for comparison with `check_trend`, whose guard is
`first_half > 0` and which therefore also zeroes the change for negative
older-half means. -/
def claimed_change_pct (first_half second_half : ℚ) : ℚ :=
  if first_half ≠ 0 then (second_half - first_half) / first_half * 100 else 0

/-! Helper lemmas. -/

theorem cat_unhealthy (aqi : ℤ) (h1 : 151 ≤ aqi) (h2 : aqi ≤ 200) :
    get_aqi_category aqi = (.unhealthy, 151, 200) := by
  unfold get_aqi_category
  split_ifs <;> first | rfl | (exfalso; omega)

theorem cat_very_unhealthy (aqi : ℤ) (h1 : 201 ≤ aqi) (h2 : aqi ≤ 300) :
    get_aqi_category aqi = (.veryUnhealthy, 201, 300) := by
  unfold get_aqi_category
  split_ifs <;> first | rfl | (exfalso; omega)

theorem cat_hazardous (aqi : ℤ) (h1 : 301 ≤ aqi) (h2 : aqi ≤ 500) :
    get_aqi_category aqi = (.hazardous, 301, 500) := by
  unfold get_aqi_category
  split_ifs <;> first | rfl | (exfalso; omega)

theorem cat_negative (aqi : ℤ) (h1 : aqi < 0) :
    get_aqi_category aqi = (.hazardous, 301, 500) := by
  unfold get_aqi_category
  split_ifs <;> first | rfl | (exfalso; omega)

theorem cat_low (aqi : ℤ) (h1 : 0 ≤ aqi) (h2 : aqi ≤ 100) :
    (get_aqi_category aqi).1 = Category.good ∨
      (get_aqi_category aqi).1 = Category.moderate := by
  unfold get_aqi_category
  split_ifs <;> first | exact Or.inl rfl | exact Or.inr rfl | (exfalso; omega)

theorem check_anomaly_small (now : ℚ) (s : AMState)
    (h : s.reading_buffer.length < anomaly_window_size) :
    check_anomaly now s = (none, s) := by
  unfold check_anomaly
  rw [if_pos h]

theorem check_trend_small (now : ℚ) (s : AMState)
    (h : s.reading_buffer.length < 20) :
    check_trend now s = (none, s) := by
  unfold check_trend
  rw [if_pos h]

theorem check_threshold_skip (now : ℚ) (aqi : ℤ) (rid : Option ℤ)
    (s : AMState)
    (h : (get_aqi_category aqi).1 = Category.good ∨
      (get_aqi_category aqi).1 = Category.moderate) :
    check_threshold now aqi rid s = (none, s) := by
  unfold check_threshold
  rw [if_pos h]

theorem lookup_setTime_self (times : List (String × ℚ)) (key : String)
    (t : ℚ) : lookupTime (setTime times key t) key = some t := by
  induction times with
  | nil => simp [setTime, lookupTime]
  | cons p rest ih =>
    by_cases h : p.1 = key
    · simp [setTime, h, lookupTime]
    · simp [setTime, h, lookupTime, ih]

theorem lookup_setTime_other (times : List (String × ℚ)) (key other : String)
    (t : ℚ) (h : other ≠ key) :
    lookupTime (setTime times key t) other = lookupTime times other := by
  induction times with
  | nil =>
    simp only [setTime, lookupTime]
    rw [if_neg fun hk => h (hk.symm)]
  | cons p rest ih =>
    by_cases hp : p.1 = key
    · simp only [setTime, if_pos hp, lookupTime]
      rw [if_neg fun hk => h (hk.symm), if_neg (by rw [hp]; exact fun hk => h hk.symm)]
    · simp only [setTime, if_neg hp, lookupTime, ih]

theorem can_send_false_snd (now : ℚ) (times : List (String × ℚ))
    (key : String) (h : (can_send_alert now times key).1 = false) :
    (can_send_alert now times key).2 = times := by
  unfold can_send_alert at h ⊢
  cases hl : lookupTime times key with
  | none => simp_all
  | some t =>
    by_cases hc : now - t < threshold_cooldown_minutes
    · simp_all
    · simp_all

theorem run_callbacks_eq_map (cbs : List (Alert → Except ε Unit)) (a : Alert) :
    run_callbacks cbs a = cbs.map fun cb => cb_outcome cb a := by
  induction cbs with
  | nil => rfl
  | cons cb rest ih => simp [run_callbacks, ih]

theorem count_total_eq (l : List Alert) (c : Counts) :
    (l.foldl count_step c).total =
      c.total + (l.filter fun a => !a.acknowledged).length := by
  induction l generalizing c with
  | nil => simp
  | cons a rest ih =>
    rw [List.foldl_cons, ih]
    by_cases h : a.acknowledged
    · simp [count_step, h]
    · cases hs : a.severity <;> simp [count_step, h, hs] <;> omega

theorem count_sum_invariant (l : List Alert) (c : Counts)
    (h : c.total = c.info + c.warning + c.critical + c.emergency) :
    (l.foldl count_step c).total =
      (l.foldl count_step c).info + (l.foldl count_step c).warning +
        (l.foldl count_step c).critical + (l.foldl count_step c).emergency := by
  induction l generalizing c with
  | nil => simpa using h
  | cons a rest ih =>
    rw [List.foldl_cons]
    apply ih
    by_cases hk : a.acknowledged
    · simpa [count_step, hk] using h
    · cases hs : a.severity <;> simp [count_step, hk, hs] <;> omega

theorem cleanup_list_length (now : ℚ) (l : List Alert) :
    (cleanup_list now l).length ≤ max_active_alerts := by
  simp only [cleanup_list]
  by_cases h : max_active_alerts < (cleanup_keep now l).length
  · rw [if_pos h, List.length_drop]; omega
  · rw [if_neg h]; omega

theorem cleanup_list_drop (now : ℚ) (l : List Alert) :
    ∃ k, cleanup_list now l = (cleanup_keep now l).drop k := by
  simp only [cleanup_list]
  by_cases h : max_active_alerts < (cleanup_keep now l).length
  · exact ⟨(cleanup_keep now l).length - max_active_alerts, by rw [if_pos h]⟩
  · exact ⟨0, by rw [if_neg h, List.drop_zero]⟩

theorem option_toList_length (o : Option α) : o.toList.length ≤ 1 := by
  cases o <;> simp

theorem forecast_scan_find (now : ℚ) :
    ∀ (preds : List ForecastPoint) (s : AMState),
      (forecast_scan now preds s).1 =
        ((preds.find? fun p =>
            decide (p.hours_ahead ≤ predictive_lead_time_hours) &&
            decide (150 < p.aqi) &&
            (can_send_alert now s.last_alert_times (predictive_key p.aqi)).1).map
          fun p => mk_predictive_alert now p s).toList := by
  intro preds
  induction preds with
  | nil => intro s; rfl
  | cons p rest ih =>
    intro s
    by_cases hq : p.hours_ahead ≤ predictive_lead_time_hours ∧ 150 < p.aqi
    · cases hr : (can_send_alert now s.last_alert_times (predictive_key p.aqi)).1 with
      | true =>
        rw [List.find?_cons_of_pos _ (by simp [hq.1, hq.2, hr])]
        simp only [forecast_scan, if_pos hq, hr, if_true]
        rfl
      | false =>
        rw [List.find?_cons_of_neg _ (by simp [hr])]
        simp only [forecast_scan, if_pos hq, hr, if_false]
        have hs1 : ({ s with last_alert_times :=
            (can_send_alert now s.last_alert_times (predictive_key p.aqi)).2 } :
            AMState) = s := by
          rw [can_send_false_snd now s.last_alert_times (predictive_key p.aqi) hr]
        rw [hs1]
        exact ih s
    · have hpred : (decide (p.hours_ahead ≤ predictive_lead_time_hours) &&
          decide (150 < p.aqi) &&
          (can_send_alert now s.last_alert_times (predictive_key p.aqi)).1) =
            false := by
        by_cases h1 : p.hours_ahead ≤ predictive_lead_time_hours
        · by_cases h2 : (150:ℤ) < p.aqi
          · exact absurd ⟨h1, h2⟩ hq
          · simp [h2]
        · simp [h1]
      rw [List.find?_cons_of_neg _ (by simp [hpred])]
      simp only [forecast_scan, if_neg hq]
      exact ih s

theorem anomaly_kind (now : ℚ) (s : AMState) (a : Alert)
    (h : (check_anomaly now s).1 = some a) : a.type = AlertType.anomaly := by
  simp only [check_anomaly] at h
  repeat' split at h
  all_goals first
    | (rw [← Option.some.inj h]; rfl)
    | simp at h

theorem trend_kind (now : ℚ) (s : AMState) (a : Alert)
    (h : (check_trend now s).1 = some a) : a.type = AlertType.trend := by
  simp only [check_trend] at h
  repeat' split at h
  all_goals first
    | (rw [← Option.some.inj h]; rfl)
    | simp at h

theorem filter_threshold_parts (o1 o2 : Option Alert)
    (h1 : ∀ a, o1 = some a → a.type ≠ AlertType.threshold)
    (h2 : ∀ a, o2 = some a → a.type ≠ AlertType.threshold) :
    ((o1.toList ++ o2.toList).filter fun a =>
      decide (a.type = AlertType.threshold)) = [] := by
  cases o1 <;> cases o2 <;> simp_all

theorem process_reading_no_threshold (now : ℚ) (r : Reading) (s : AMState)
    (hcat : (get_aqi_category r.aqi).1 = Category.good ∨
      (get_aqi_category r.aqi).1 = Category.moderate) :
    ((process_reading now r s).1.filter fun a =>
      decide (a.type = AlertType.threshold)) = [] := by
  simp only [process_reading]
  rw [check_threshold_skip now r.aqi r.id _ hcat]
  simp only [Option.toList, List.nil_append]
  exact filter_threshold_parts _ _
    (fun a ha => by rw [anomaly_kind _ _ _ ha]; simp)
    (fun a ha => by rw [trend_kind _ _ _ ha]; simp)

theorem band_cases (x : ℤ) (h1 : 151 ≤ x) (h2 : x ≤ 500) :
    get_aqi_category x = (.unhealthy, 151, 200) ∨
      get_aqi_category x = (.veryUnhealthy, 201, 300) ∨
      get_aqi_category x = (.hazardous, 301, 500) := by
  by_cases h3 : x ≤ 200
  · exact Or.inl (cat_unhealthy x h1 h3)
  · by_cases h4 : x ≤ 300
    · exact Or.inr (Or.inl (cat_very_unhealthy x (by omega) h4))
    · exact Or.inr (Or.inr (cat_hazardous x (by omega) h2))

/-! Claim theorems. -/

/-- C1, counterexample.  After nine readings of AQI 50 on a fresh manager,
the buffer holds nine 50s; processing a tenth reading of AQI 500 produces
only a Threshold alert and no Anomaly alert — the baseline (nine 50s) has
zero standard deviation, and `_check_anomaly` guards that case with
`if stdev > 0` instead of substituting the fallback spread 10, so the claim
that this input "returns an Anomaly alert whose metadata direction is
spike" is false on the code. -/
theorem C1_counterexample :
    nineFiftyState.reading_buffer = List.replicate 9 fifty ∧
    ((process_reading 0 spike500 nineFiftyState).1.map fun a => a.type) =
      [AlertType.threshold] := by decide

/-- C2, counterexample.  With the bucket-150 predictive cooldown recorded
at minute 0 and the call at minute 5, the forecast
`[{hours_ahead 1, aqi 180}, {hours_ahead 1, aqi 260}]` alerts on the
SECOND point (aqi 260): the first qualifying point (aqi 180) is
cooldown-denied and the scan continues instead of early-exiting, so the
claim that the scan early-exits at the first qualifying point and that no
later forecast point can produce an alert in the same call is false on the
code. -/
theorem C2_counterexample :
    ((process_forecast 5 (some twoPointForecast)
        bucketCooldownState).1.map fun a => a.aqi_value) = [some 260] := by
  decide

/-- C3, counterexample.  Calling `process_forecast` with the forecast-point
list under the key `points` — the key named in the spec's interface
(`processForecast(forecast: {points: list<ForecastPoint>})`) — returns the
empty list and leaves the state untouched, because the code reads the dict
key `'forecast'`, not `'points'`; so the claimed single Warning alert is
not produced for that input. -/
theorem C3_counterexample :
    process_forecast 0 (some oneHour180Points) emptyState =
      ([], emptyState) := by decide

/-- C3, amended.  With the forecast-point list under the key `'forecast'`
(the key the code actually reads), lead time 2 and fresh cooldown state,
the point `{hours_ahead 1, aqi 180, timestamp 100}` yields exactly one
auto-dismissing Predictive alert of severity Warning whose `expires_at` is
the call time plus `hours_ahead * 60 = 60` minutes (the expiry is relative
to the call time, not to the point's own `timestamp` field); the same
input with `hours_ahead` 5 yields the empty list. -/
theorem C3_amended_thm :
    ((process_forecast 0 (some oneHour180Forecast) emptyState).1.map fun a =>
        (a.type, a.severity, a.auto_dismiss, a.expires_at)) =
      [(AlertType.predictive, Severity.warning, true, some 60)] ∧
    (process_forecast 0 (some fiveHour180Forecast) emptyState).1 = [] := by
  decide

/-- C4.  (1) Every integer AQI in [151, 500] processed as a fresh reading
yields exactly one alert, a Threshold alert of severity Critical for
151-300 and Emergency for 301-500.  (2) A second reading in the same EPA
band within 15 minutes of the first yields no further alert at all.
(3) An AQI in [0, 100] never contributes a Threshold alert, from any
state. -/
theorem C4_thm (aqi aqi2 : ℤ) (now t1 t2 : ℚ) (rid : Option ℤ) :
    (151 ≤ aqi → aqi ≤ 500 →
      ((process_reading now { id := rid, aqi := aqi } emptyState).1.map
        fun a => (a.type, a.severity)) =
        [(AlertType.threshold,
          if aqi ≤ 300 then Severity.critical else Severity.emergency)]) ∧
    (151 ≤ aqi → aqi ≤ 500 → 151 ≤ aqi2 → aqi2 ≤ 500 →
      (get_aqi_category aqi2).1 = (get_aqi_category aqi).1 →
      0 ≤ t2 - t1 → t2 - t1 < 15 →
      (process_reading t2 { id := rid, aqi := aqi2 }
        (process_reading t1 { id := rid, aqi := aqi } emptyState).2).1 = []) ∧
    (0 ≤ aqi → aqi ≤ 100 → ∀ s : AMState,
      ((process_reading now { id := rid, aqi := aqi } s).1.filter fun a =>
        decide (a.type = AlertType.threshold)) = []) := by
  refine ⟨?_, ?_, ?_⟩
  · intro h1 h2
    by_cases h3 : aqi ≤ 200
    · have hcat := cat_unhealthy aqi h1 h3
      rw [if_pos (by omega : aqi ≤ 300)]
      simp [process_reading, check_threshold, check_anomaly, check_trend,
        hcat, can_send_alert, lookupTime, setTime, create_alert,
        cleanup_list, cleanup_keep, pushBounded, emptyState,
        threshold_severity, threshold_key, Category.key, anomaly_window_size,
        max_active_alerts, reading_buffer_cap, threshold_cooldown_minutes]
    · by_cases h4 : aqi ≤ 300
      · have hcat := cat_very_unhealthy aqi (by omega) h4
        rw [if_pos h4]
        simp [process_reading, check_threshold, check_anomaly, check_trend,
          hcat, can_send_alert, lookupTime, setTime, create_alert,
          cleanup_list, cleanup_keep, pushBounded, emptyState,
          threshold_severity, threshold_key, Category.key,
          anomaly_window_size, max_active_alerts, reading_buffer_cap,
          threshold_cooldown_minutes]
      · have hcat := cat_hazardous aqi (by omega) h2
        rw [if_neg h4]
        simp [process_reading, check_threshold, check_anomaly, check_trend,
          hcat, can_send_alert, lookupTime, setTime, create_alert,
          cleanup_list, cleanup_keep, pushBounded, emptyState,
          threshold_severity, threshold_key, Category.key,
          anomaly_window_size, max_active_alerts, reading_buffer_cap,
          threshold_cooldown_minutes]
  · intro h1 h2 h1b h2b hsame h4 h5
    rcases band_cases aqi h1 h2 with hA | hA | hA <;>
      rcases band_cases aqi2 h1b h2b with hB | hB | hB
    · simp [process_reading, check_threshold, check_anomaly, check_trend,
        hA, hB, can_send_alert, lookupTime, setTime, create_alert,
        cleanup_list, cleanup_keep, pushBounded, emptyState,
        threshold_severity, threshold_key, Category.key,
        anomaly_window_size, max_active_alerts, reading_buffer_cap,
        threshold_cooldown_minutes, h5]
    · rw [hA, hB] at hsame; simp at hsame
    · rw [hA, hB] at hsame; simp at hsame
    · rw [hA, hB] at hsame; simp at hsame
    · simp [process_reading, check_threshold, check_anomaly, check_trend,
        hA, hB, can_send_alert, lookupTime, setTime, create_alert,
        cleanup_list, cleanup_keep, pushBounded, emptyState,
        threshold_severity, threshold_key, Category.key,
        anomaly_window_size, max_active_alerts, reading_buffer_cap,
        threshold_cooldown_minutes, h5]
    · rw [hA, hB] at hsame; simp at hsame
    · rw [hA, hB] at hsame; simp at hsame
    · rw [hA, hB] at hsame; simp at hsame
    · simp [process_reading, check_threshold, check_anomaly, check_trend,
        hA, hB, can_send_alert, lookupTime, setTime, create_alert,
        cleanup_list, cleanup_keep, pushBounded, emptyState,
        threshold_severity, threshold_key, Category.key,
        anomaly_window_size, max_active_alerts, reading_buffer_cap,
        threshold_cooldown_minutes, h5]
  · intro h1 h2 s
    exact process_reading_no_threshold now _ s (cat_low aqi h1 h2)

/-- C4, witness: the theorem applied at the concrete inputs AQI 180 (fresh
reading yields one Critical Threshold alert), a follow-up AQI 190 in the
same band ten minutes later (no further alert), and AQI 50 (no Threshold
alert from a fresh state). -/
theorem C4_witness :
    ((process_reading 0 { id := none, aqi := 180 } emptyState).1.map
      fun a => (a.type, a.severity)) =
      [(AlertType.threshold, Severity.critical)] ∧
    (process_reading 10 { id := none, aqi := 190 }
      (process_reading 0 { id := none, aqi := 180 } emptyState).2).1 = [] ∧
    ((process_reading 0 { id := none, aqi := 50 } emptyState).1.filter
      fun a => decide (a.type = AlertType.threshold)) = [] := by
  refine ⟨?_, ?_, ?_⟩
  · have h := (C4_thm 180 180 0 0 10 none).1 (by decide) (by decide)
    simpa using h
  · exact (C4_thm 180 190 0 0 10 none).2.1 (by decide) (by decide)
      (by decide) (by decide) (by decide) (by decide) (by decide)
  · exact (C4_thm 50 180 0 0 10 none).2.2 (by decide) (by decide) emptyState

/-- C5, counterexample.  One alert created at minute 0 with a five-minute
TTL: by minute 100 it has expired — `get_active_alerts` at minute 100
returns nothing — yet `get_alert_counts` still reports `total = 1`,
because the counts read performs no cleanup (and takes no notion of the
current time at all); so the claim that cleanup runs before the
severity-counts read and that a count never includes an alert whose
`expires_at` has passed is false on the code. -/
theorem C5_counterexample :
    (get_alert_counts expiredCountState).total = 1 ∧
    (expiredCountState.active_alerts.map fun a => a.expires_at) = [some 5] ∧
    (get_active_alerts 100 expiredCountState).1 = [] := by decide

/-- C7, counterexample.  With the key's last record at minute 0 and the
call at minute 15, the elapsed time equals the cooldown (15 minutes) and
does not exceed it, so the claim requires `false` with the map unchanged;
the code tests `now - last < cooldown` and therefore returns `true` and
re-records the key at minute 15. -/
theorem C7_counterexample :
    can_send_alert 15 [(anomaly_key, 0)] anomaly_key =
      (true, [(anomaly_key, 15)]) := by decide

/-- C1, amended.  Whenever the sample standard deviation of the baseline
(first N-1 of the last N = 10 buffered AQI values) is zero, the anomaly
check is skipped entirely and no Anomaly alert is produced (the fixed
fallback spread 10 is substituted only when the window holds fewer than 3
values, which cannot happen at window size 10); consequently ten identical
readings produce no Anomaly alert — and neither does the 9-times-50
then-500 buffer of the counterexample. -/
theorem C1_amended_thm (now : ℚ) (s : AMState) :
    (anomaly_window_size ≤ s.reading_buffer.length →
      sampleVarianceQ (((takeLastN anomaly_window_size
        s.reading_buffer).map fun r => r.aqi).dropLast) = 0 →
      (check_anomaly now s).1 = none) ∧
    ((process_reading 0 fifty nineFiftyState).1.filter fun a =>
      decide (a.type = AlertType.anomaly)) = [] := by
  refine ⟨?_, by decide⟩
  intro hlen hvar
  simp only [check_anomaly]
  rw [if_neg (by omega : ¬ s.reading_buffer.length < anomaly_window_size)]
  have hlen2 : ((takeLastN anomaly_window_size s.reading_buffer).map
      fun r => r.aqi).length = anomaly_window_size := by
    simp only [List.length_map, takeLastN, List.length_drop]
    omega
  have h3 : ¬ (((takeLastN anomaly_window_size s.reading_buffer).map
      fun r => r.aqi).length < 3) := by rw [hlen2]; decide
  have h4 : 2 < ((takeLastN anomaly_window_size s.reading_buffer).map
      fun r => r.aqi).length := by rw [hlen2]; decide
  rw [if_neg h3, if_pos h4, hvar, if_neg (lt_irrefl (0:ℚ))]

/-- C1, witness: the zero-standard-deviation branch of the amended theorem
applied at the concrete state holding ten readings of AQI 50 — the
baseline variance is zero and the anomaly check returns nothing. -/
theorem C1_witness :
    anomaly_window_size ≤ tenFiftyState.reading_buffer.length ∧
    sampleVarianceQ (((takeLastN anomaly_window_size
      tenFiftyState.reading_buffer).map fun r => r.aqi).dropLast) = 0 ∧
    (check_anomaly 0 tenFiftyState).1 = none :=
  ⟨by decide, by decide,
    (C1_amended_thm 0 tenFiftyState).1 (by decide) (by decide)⟩

/-- C2, amended.  `process_forecast` emits at most one Predictive alert
per call, and the alert (if any) is produced for the FIRST point in
sequence order that lies within the lead time, has `aqi > 150`, AND whose
50-wide-bucket cooldown allows; qualifying points whose bucket cooldown
denies each trigger their own cooldown check and are skipped without
stopping the scan (the cooldown map is unchanged by denied checks, so
every check during one scan reads the original map), and the scan
early-exits only at the first allowed qualifying point. -/
theorem C2_amended_thm (now : ℚ) (f : Option ForecastInput)
    (preds : List ForecastPoint) (pts : Option (List ForecastPoint))
    (s : AMState) :
    (process_forecast now f s).1.length ≤ 1 ∧
    (process_forecast now
        (some { forecastField := some preds, pointsField := pts }) s).1 =
      ((preds.find? fun p =>
          decide (p.hours_ahead ≤ predictive_lead_time_hours) &&
          decide (150 < p.aqi) &&
          (can_send_alert now s.last_alert_times (predictive_key p.aqi)).1).map
        fun p => mk_predictive_alert now p s).toList := by
  constructor
  · match f with
    | none => simp [process_forecast]
    | some fi =>
      match hf : fi.forecastField with
      | none => simp [process_forecast, hf]
      | some ps =>
        simp only [process_forecast, hf]
        rw [forecast_scan_find]
        exact option_toList_length _
  · exact forecast_scan_find now preds s

/-- C5, amended.  Cleanup runs on every alert creation and before the
active-alert reads (`get_active_alerts` / `get_all_alerts`), but NOT
before the severity-counts read: `get_alert_counts` counts exactly the
unacknowledged alerts of the stored active list as-is (its total is the
number of unacknowledged stored alerts and equals the sum of the four
per-severity counts), and may therefore include alerts whose `expires_at`
has already passed.  By contrast an active-alert read never returns an
alert already expired at the read time. -/
theorem C5_amended_thm (now : ℚ) (s : AMState) :
    ((get_active_alerts now s).1.filter fun a =>
      match a.expires_at with
      | none => false
      | some e => decide (e ≤ now)) = [] ∧
    (get_alert_counts s).total =
      (s.active_alerts.filter fun a => !a.acknowledged).length ∧
    (get_alert_counts s).total =
      (get_alert_counts s).info + (get_alert_counts s).warning +
        (get_alert_counts s).critical + (get_alert_counts s).emergency := by
  refine ⟨?_, ?_, ?_⟩
  · rw [List.filter_eq_nil_iff]
    intro a ha
    have ha2 : a ∈ cleanup_list now s.active_alerts :=
      (List.mem_filter.mp ha).1
    have ha3 : a ∈ cleanup_keep now s.active_alerts := by
      obtain ⟨k, hk⟩ := cleanup_list_drop now s.active_alerts
      rw [hk] at ha2
      exact List.drop_subset k _ ha2
    have ha4 := (List.mem_filter.mp (List.mem_filter.mp ha3).1).2
    cases he : a.expires_at with
    | none => simp
    | some e =>
      rw [he] at ha4
      simp only [decide_eq_true_eq] at ha4
      simp only [Bool.not_eq_true, decide_eq_false_iff_not, not_le]
      exact ha4
  · have h := count_total_eq s.active_alerts {}
    simpa [get_alert_counts] using h
  · have h := count_sum_invariant s.active_alerts {} rfl
    simpa [get_alert_counts] using h

/-- C6.  After any alert creation the active list holds at most
`max_active_alerts = 50` alerts; the retained list is a suffix (a `drop`)
of the expiry/acknowledgement-filtered list, i.e. eviction removes a
prefix — the oldest entries of the creation-ordered list — first; and
sixty sequential creations on a fresh manager leave exactly the alerts
with ids 11 through 60, the 50 most recently created. -/
theorem C6_thm (now : ℚ) (ty : AlertType) (sev : Severity)
    (title message : String) (rid av : Option ℤ) (ad : Bool)
    (em : Option ℤ) (md : Metadata) (s : AMState) :
    (create_alert now ty sev title message rid av ad em md
        s).2.active_alerts.length ≤ max_active_alerts ∧
    (∃ k, (create_alert now ty sev title message rid av ad em md
        s).2.active_alerts =
      (cleanup_keep now (s.active_alerts ++
        [(create_alert now ty sev title message rid av ad em md
          s).1])).drop k) ∧
    (sixtyState.active_alerts.map fun a => a.id) =
      ((List.range max_active_alerts).map fun i => i + 11) := by
  refine ⟨?_, ?_, by decide⟩
  · exact cleanup_list_length now _
  · exact cleanup_list_drop now _

/-- C7, amended.  The cooldown check returns true and records the current
time exactly when no prior record exists for the key or the elapsed time
since its last record is at least the configured cooldown of 15 minutes
(the code tests `now - last < cooldown`, so elapsed time exactly equal to
the cooldown is allowed — "exceeds" must be read as "is at least"); in
every other case it returns false and leaves the map unchanged; and the
check never touches any other key's record. -/
theorem C7_amended_thm (now t : ℚ) (times : List (String × ℚ))
    (key other : String) :
    (lookupTime times key = none →
      can_send_alert now times key = (true, setTime times key now)) ∧
    (lookupTime times key = some t →
      threshold_cooldown_minutes ≤ now - t →
      can_send_alert now times key = (true, setTime times key now)) ∧
    (lookupTime times key = some t → now - t < threshold_cooldown_minutes →
      can_send_alert now times key = (false, times)) ∧
    lookupTime (setTime times key now) key = some now ∧
    (other ≠ key →
      lookupTime (can_send_alert now times key).2 other =
        lookupTime times other) := by
  refine ⟨?_, ?_, ?_, lookup_setTime_self times key now, ?_⟩
  · intro h
    unfold can_send_alert
    rw [h]
  · intro h hle
    unfold can_send_alert
    rw [h]
    show (if now - t < threshold_cooldown_minutes then (false, times)
      else (true, setTime times key now)) = _
    rw [if_neg (not_lt.mpr hle)]
  · intro h hlt
    unfold can_send_alert
    rw [h]
    show (if now - t < threshold_cooldown_minutes then (false, times)
      else (true, setTime times key now)) = _
    rw [if_pos hlt]
  · intro hne
    unfold can_send_alert
    cases hl : lookupTime times key with
    | none => exact lookup_setTime_other times key other now hne
    | some t0 =>
      show lookupTime
        (if now - t0 < threshold_cooldown_minutes then (false, times)
          else (true, setTime times key now)).2 other = lookupTime times other
      by_cases hc : now - t0 < threshold_cooldown_minutes
      · rw [if_pos hc]
      · rw [if_neg hc]
        exact lookup_setTime_other times key other now hne

/-- C7, witness: the amended theorem applied at concrete inputs — a key
recorded at minute 0 is allowed again at minute 20 (elapsed 20 ≥ 15, the
map is re-recorded) and denied at minute 5 (elapsed 5 < 15, the map is
unchanged). -/
theorem C7_witness :
    can_send_alert 20 [(anomaly_key, 0)] anomaly_key =
      (true, setTime [(anomaly_key, 0)] anomaly_key 20) ∧
    can_send_alert 5 [(anomaly_key, 0)] anomaly_key =
      (false, [(anomaly_key, 0)]) :=
  ⟨(C7_amended_thm 20 0 [(anomaly_key, 0)] anomaly_key trend_key).2.1
      (by decide) (by decide),
    (C7_amended_thm 5 0 [(anomaly_key, 0)] anomaly_key trend_key).2.2.1
      (by decide) (by decide)⟩

/-- C8.  For any observer callbacks and optional persistence hook, if some
observer raises on the newly created alert, the dispatching creation still
returns exactly the created alert, the state update is exactly that of the
plain creation (errors never feed back into it), and the outcome list has
exactly one entry per callback (in registration order, each entry the
callback's own caught outcome) plus one for the hook if configured — so a
raising observer neither propagates, nor blocks later observers, nor
prevents the alert from being returned. -/
theorem C8_thm (ε : Type) (cbs : List (Alert → Except ε Unit))
    (db : Option (Alert → Except ε Unit)) (now : ℚ) (ty : AlertType)
    (sev : Severity) (title message : String) (rid av : Option ℤ)
    (ad : Bool) (em : Option ℤ) (md : Metadata) (s : AMState)
    (h : ∃ cb ∈ cbs, ∃ e,
      cb (create_alert now ty sev title message rid av ad em md s).1 =
        Except.error e) :
    (create_alert_dispatch now ty sev title message rid av ad em md cbs db
        s).1 =
      (create_alert now ty sev title message rid av ad em md s).1 ∧
    (create_alert_dispatch now ty sev title message rid av ad em md cbs db
        s).2.1 =
      (create_alert now ty sev title message rid av ad em md s).2 ∧
    (create_alert_dispatch now ty sev title message rid av ad em md cbs db
        s).2.2 =
      (cbs.map fun cb =>
        cb_outcome cb (create_alert now ty sev title message rid av ad em md
          s).1) ++
        run_db_save db (create_alert now ty sev title message rid av ad em md
          s).1 ∧
    (create_alert_dispatch now ty sev title message rid av ad em md cbs db
        s).2.2.length =
      cbs.length +
        (run_db_save db (create_alert now ty sev title message rid av ad em md
          s).1).length := by
  refine ⟨rfl, rfl, ?_, ?_⟩
  · show run_callbacks cbs _ ++ run_db_save db _ = _
    rw [run_callbacks_eq_map]
  · show (run_callbacks cbs _ ++ run_db_save db _).length = _
    rw [List.length_append, run_callbacks_eq_map, List.length_map]

/-- C8, witness: the theorem applied with the raising observer `cbFail`
followed by `cbOk` and no persistence hook — the alert of the plain
creation is returned and both observers contribute an outcome. -/
theorem C8_witness :
    (create_alert_dispatch 0 .system .warning sampleTitle sampleMsg none none
        false none {} [cbFail, cbOk] none emptyState).1 =
      (create_alert 0 .system .warning sampleTitle sampleMsg none none false
        none {} emptyState).1 ∧
    (create_alert_dispatch 0 .system .warning sampleTitle sampleMsg none none
        false none {} [cbFail, cbOk] none emptyState).2.2.length = 2 := by
  have h := C8_thm Unit [cbFail, cbOk] none 0 .system .warning sampleTitle
    sampleMsg none none false none {} emptyState
    ⟨cbFail, List.mem_cons_self cbFail [cbOk], (), rfl⟩
  exact ⟨h.1, by rw [h.2.2.2]; rfl⟩

/-- C9, amended.  With at least 20 buffered readings the Trend Detector
compares the older-half mean (first 10 of the most recent 20) to the
newer-half mean: the change is treated as 0% — and no Trend alert is
produced — whenever the older-half mean is NOT POSITIVE (the code's guard
is `first_half > 0`, so negative means are also zeroed, not only zero
ones); when the increase exceeds 30% and the cooldown allows, a Warning
alert with metadata change_percent / from_avg / to_avg auto-dismissing
after 60 minutes is emitted: the 50-to-70 buffer (40% increase) produces
it, the 50-to-55 buffer (10%) produces none. -/
theorem C9_amended_thm (now : ℚ) (s : AMState) :
    (20 ≤ s.reading_buffer.length →
      ((((takeLastN 20 s.reading_buffer).map
        fun r => r.aqi).take 10).sum : ℚ) / 10 ≤ 0 →
      (check_trend now s).1 = none) ∧
    ((check_trend 0 worsenState).1.map fun a => a.type) =
      some AlertType.trend ∧
    ((check_trend 0 worsenState).1.map fun a => a.severity) =
      some Severity.warning ∧
    ((check_trend 0 worsenState).1.map fun a => a.metadata.change_percent) =
      some (some 40) ∧
    ((check_trend 0 worsenState).1.map fun a => a.metadata.from_avg) =
      some (some 50) ∧
    ((check_trend 0 worsenState).1.map fun a => a.metadata.to_avg) =
      some (some 70) ∧
    ((check_trend 0 worsenState).1.map fun a => a.expires_at) =
      some (some 60) ∧
    (check_trend 0 mildTrendState).1 = none := by
  refine ⟨?_, by decide, by decide, by decide, by decide, by decide,
    by decide, by decide⟩
  intro hlen hneg
  simp only [check_trend]
  rw [if_neg (by omega : ¬ s.reading_buffer.length < 20)]
  rw [if_neg (not_lt.mpr hneg)]
  rw [if_neg (by norm_num : ¬ (30:ℚ) < 0)]

/-- C9, witness: the not-positive-mean branch of the amended theorem
applied at the concrete state of twenty AQI-0 readings (older-half mean 0,
no alert). -/
theorem C9_witness :
    (20 ≤ zeroTrendState.reading_buffer.length) ∧
    ((((takeLastN 20 zeroTrendState.reading_buffer).map
      fun r => r.aqi).take 10).sum : ℚ) / 10 ≤ 0 ∧
    (check_trend 0 zeroTrendState).1 = none :=
  ⟨by decide, by decide,
    (C9_amended_thm 0 zeroTrendState).1 (by decide) (by decide)⟩

/-- C10.  A negative AQI matches none of the six EPA bands, so the
category lookup falls through to its `('hazardous', 301, 500)` default;
hence, when the `threshold_hazardous` cooldown permits, `process_reading`
on a negative-AQI reading returns a Threshold alert of severity Emergency
as its first alert rather than treating the reading as good or rejecting
it. -/
theorem C10_thm (aqi : ℤ) (now : ℚ) (rid : Option ℤ) (s : AMState)
    (h1 : aqi < 0)
    (h2 : (can_send_alert now s.last_alert_times
      (threshold_key Category.hazardous)).1 = true) :
    get_aqi_category aqi = (Category.hazardous, 301, 500) ∧
    ∃ a, (process_reading now { id := rid, aqi := aqi } s).1.head? = some a ∧
      a.type = AlertType.threshold ∧ a.severity = Severity.emergency := by
  have hcat := cat_negative aqi h1
  refine ⟨hcat, ?_⟩
  simp only [process_reading, check_threshold, hcat]
  rw [if_neg (by simp : ¬ (Category.hazardous = Category.good ∨
    Category.hazardous = Category.moderate))]
  simp only [h2, if_true]
  exact ⟨_, rfl, rfl, rfl⟩

/-- C10, witness: the theorem applied at AQI -5 on a fresh manager — the
category defaults to hazardous and the first alert returned is an
Emergency Threshold alert. -/
theorem C10_witness :
    get_aqi_category (-5) = (Category.hazardous, 301, 500) ∧
    ∃ a, (process_reading 0 { id := none, aqi := -5 }
        emptyState).1.head? = some a ∧
      a.type = AlertType.threshold ∧ a.severity = Severity.emergency :=
  C10_thm (-5) 0 none emptyState (by decide) (by decide)

/-- C9, counterexample.  Twenty buffered readings whose older half
averages -100 and newer half averages -200: the older-half mean is nonzero
and the percentage change as the claim computes it is 100% > 30%, so the
claim (change treated as 0% only when the older-half mean is not nonzero)
requires a Trend alert; the code computes the change only when
`first_half > 0` and therefore treats it as 0% and produces none. -/
theorem C9_counterexample :
    claimed_change_pct (-100) (-200) = 100 ∧
    ((30 : ℚ) < 100) ∧
    ((((takeLastN 20 negTrendState.reading_buffer).map
        fun r => r.aqi).take 10).sum = -1000 ∧
      (((takeLastN 20 negTrendState.reading_buffer).map
        fun r => r.aqi).drop 10).sum = -2000) ∧
    (check_trend 0 negTrendState).1 = none := by decide

end AirQuality
